import Mathlib

/-!
Shallow embedding of `meta_dataloader/TCGA.py`.

The embedded program has two parts:

* task discovery, `get_TCGA_task_ids` (source lines 183-229): scan a
  directory of clinical tables and keep every `(task_variable, cancer)`
  pair whose per-category sample counts all exceed
  `min_samples_per_class` and which has at least two categories;
* task materialization, `TCGATask.__init__` (source lines 110-165):
  filter the clinical rows of one cancer type to those with a
  non-missing attribute value and a sample id known to the expression
  store, encode the attribute values as categorical codes, resolve each
  retained sample id to its expression row position, sort the
  (position, code) pairs, and gather the expression rows.

Strings stay `String`; pandas missing cells are `Option.none`; the
expression matrix is a `List (List Int)` of rows; a clinical table is a
list of rows together with the list of its column names (a column
access on an absent name raises `KeyError` in the source, modelled with
`Except`).  Sorting uses `List.insertionSort`, which agrees with
Python's stable `sorted` for the total orders used here.
-/

/-- Boolean code-point lexicographic comparison of character lists.  This is
the order Python uses on `str` and the one pandas uses when it sorts the
categories of a string column. -/
def charsLe : List Char → List Char → Bool
  | [], _ => true
  | _ :: _, [] => false
  | a :: as, b :: bs =>
    if a.toNat < b.toNat then true
    else if b.toNat < a.toNat then false
    else charsLe as bs

/-- Lexicographic order on `String`, as a proposition. -/
def strLE (s t : String) : Prop := charsLe s.toList t.toList = true

instance : DecidableRel strLE := fun s t => by unfold strLE; infer_instance

/-- Order used by Python `sorted` on pairs `(index, label)`: full
lexicographic comparison of the tuples. -/
def pairLE (p q : Nat × Nat) : Prop := p.1 < q.1 ∨ (p.1 = q.1 ∧ p.2 ≤ q.2)

instance : DecidableRel pairLE := fun p q => by unfold pairLE; infer_instance

/-- One row of a clinical matrix: its `sampleID` cell and its attribute
cells, a cell being `none` when the value is missing (pandas `NaN`). -/
structure Row where
  sampleID : String
  attrs : List (String × Option String)
deriving DecidableEq

/-- Value of the attribute column `v` in row `r`; `none` when the cell is
missing.  Only meaningful when `v` is one of the table's columns. -/
def Row.val (r : Row) (v : String) : Option String :=
  (r.attrs.lookup v).getD none

/-- A parsed clinical matrix: the names of its columns and its rows.
A pandas column access `matrix[c]` raises `KeyError` iff `c ∉ cols`. -/
structure ClinicalTable where
  cols : List String
  rows : List Row
deriving DecidableEq

/-- One file of the `clinicalMatrices` directory: its filename and the
result of `pd.read_csv` on it (`Except.error` models a parse failure). -/
structure DirEntry where
  filename : String
  table : Except String ClinicalTable

/-- Cancer token of a clinical-matrix filename: `filename.split('_')[0]`
(source line 219). -/
def cancer_of (filename : String) : String :=
  String.mk (filename.toList.takeWhile (fun c => c != '_'))

/-- Sample ids eligible for a task during discovery (source lines 210-214):
`set(potential_sample_ids).intersection(all_sample_ids)`, i.e. the sample
ids of rows with a present value of `v`, kept when they also appear in the
global sample-id list.  Used only through membership, so a list is an
adequate model of the Python set. -/
def task_sample_ids (m : ClinicalTable) (v : String) (all_sample_ids : List String) :
    List String :=
  ((m.rows.filter (fun r => (r.val v).isSome)).map Row.sampleID).filter
    (fun s => decide (s ∈ all_sample_ids))

/-- Values fed to the discovery counter (source line 221):
`matrix[task_variable][matrix['sampleID'].isin(task_sample_ids)]`.  Every
row whose `sampleID` is in the intersected set contributes its value of
`v`, present or missing. -/
def counted_values (m : ClinicalTable) (v : String) (all_sample_ids : List String) :
    List (Option String) :=
  (m.rows.filter (fun r => decide (r.sampleID ∈ task_sample_ids m v all_sample_ids))).map
    (fun r => r.val v)

/-- Condition of source line 224: every count of the counter is strictly
above `min_samples_per_class`. -/
def num_samples_per_class_is_in_range (m : ClinicalTable) (v : String)
    (all_sample_ids : List String) (min_samples_per_class : Nat) : Bool :=
  (counted_values m v all_sample_ids).dedup.all
    (fun k => decide (min_samples_per_class < (counted_values m v all_sample_ids).count k))

/-- Condition of source line 226: the counter has more than one key. -/
def is_not_one_class (m : ClinicalTable) (v : String) (all_sample_ids : List String) : Bool :=
  decide (1 < (counted_values m v all_sample_ids).dedup.length)

/-- Task ids contributed by one parsed clinical table (source lines 207-228).
A variable is skipped when the column access on it or on `sampleID` raises
`KeyError` (lines 210-217); otherwise the task id is kept iff both
acceptance conditions hold. -/
def tasks_for_table (filename : String) (m : ClinicalTable) (task_variables : List String)
    (all_sample_ids : List String) (min_samples_per_class : Nat) :
    List (String × String) :=
  task_variables.filterMap (fun v =>
    if v ∈ m.cols ∧ "sampleID" ∈ m.cols then
      if num_samples_per_class_is_in_range m v all_sample_ids min_samples_per_class
          ∧ is_not_one_class m v all_sample_ids then
        some (v, cancer_of filename)
      else none
    else none)

/-- Task discovery, `get_TCGA_task_ids` (source lines 183-229), over an
already-listed directory.  `pd.read_csv` at line 205 is not guarded by the
`try` block, so the first file that fails to parse aborts the whole scan
with its error; otherwise the per-table task ids are concatenated in
directory order. -/
def get_TCGA_task_ids (entries : List DirEntry) (task_variables : List String)
    (all_sample_ids : List String) (min_samples_per_class : Nat) :
    Except String (List (String × String)) :=
  match entries with
  | [] => .ok []
  | e :: rest =>
    match e.table with
    | .error msg => .error msg
    | .ok m =>
      match get_TCGA_task_ids rest task_variables all_sample_ids min_samples_per_class with
      | .error msg => .error msg
      | .ok ts =>
        .ok (tasks_for_table e.filename m task_variables all_sample_ids min_samples_per_class
              ++ ts)

/-- Rows retained by materialization (source line 146):
`attribute.notnull() & matrix['sampleID'].isin(self._all_sample_ids)`. -/
def available_rows (m : ClinicalTable) (v : String) (all_sample_ids : List String) :
    List Row :=
  m.rows.filter (fun r => (r.val v).isSome && decide (r.sampleID ∈ all_sample_ids))

/-- Sample ids of the retained rows (source line 147). -/
def sample_ids (m : ClinicalTable) (v : String) (all_sample_ids : List String) :
    List String :=
  (available_rows m v all_sample_ids).map Row.sampleID

/-- Attribute values of the retained rows (source line 148); every retained
row has a present value, so the default of `getD` is never used. -/
def filtered_attribute (m : ClinicalTable) (v : String) (all_sample_ids : List String) :
    List String :=
  (available_rows m v all_sample_ids).map (fun r => (r.val v).getD "")

/-- Categories of the retained attribute values (source line 150): pandas
`astype('category')` takes the distinct observed values sorted
lexicographically. -/
def categories (m : ClinicalTable) (v : String) (all_sample_ids : List String) :
    List String :=
  List.insertionSort strLE (filtered_attribute m v all_sample_ids).dedup

/-- Categorical codes of the retained rows (source line 149): the zero-based
index of each value in the category sequence. -/
def codes (m : ClinicalTable) (v : String) (all_sample_ids : List String) : List Nat :=
  (filtered_attribute m v all_sample_ids).map
    (fun x => List.indexOf x (categories m v all_sample_ids))

/-- Expression row positions of the retained rows (source line 154):
`all_sample_ids.index(sample_id)`, the first occurrence index. -/
def indices_to_load (m : ClinicalTable) (v : String) (all_sample_ids : List String) :
    List Nat :=
  (sample_ids m v all_sample_ids).map (fun s => List.indexOf s all_sample_ids)

/-- Result of `sorted(zip(indices_to_load, self._labels))` (source line 155):
the (position, code) pairs sorted lexicographically; `insertionSort` with a
total antisymmetric order returns exactly what Python's stable sort does. -/
def sorted_pairs (m : ClinicalTable) (v : String) (all_sample_ids : List String) :
    List (Nat × Nat) :=
  List.insertionSort pairLE
    ((indices_to_load m v all_sample_ids).zip (codes m v all_sample_ids))

/-- On-demand row-subset read (source lines 159-161):
`f['dataset'][positions, :]` returns the rows at the given positions, in
order. -/
def row_subset_read (data : List (List Int)) (positions : List Nat) : List (List Int) :=
  positions.map (fun i => data.getD i [])

/-- Preloaded bulk-then-slice read (source line 163):
`self._data[np.array(positions), :]` on the fully materialized in-memory
matrix. -/
def bulk_then_slice (data : List (List Int)) (positions : List Nat) : List (List Int) :=
  (fun full => positions.map (fun i => full.getD i [])) data

/-- Fields of a materialized task (source lines 110-165). -/
structure TCGATask where
  id : String × String
  labels : List Nat
  categories : List String
  num_classes : Nat
  samples : List (List Int)
  input_size : Nat
deriving DecidableEq

/-- Materialization, `TCGATask.__init__` (source lines 110-165).  A missing
`sampleID` or task-variable column raises `KeyError` at lines 142-143; when
no row is retained, the unpacking `zip(*sorted(zip(...)))` at line 155
raises `ValueError`; otherwise the task is built, gathering the feature
rows from the expression matrix through the preloaded slice (line 163) or
the on-demand read (line 161). -/
def TCGATask_init (task_id : String × String) (m : ClinicalTable)
    (all_sample_ids : List String) (data : List (List Int)) (preloaded : Bool) :
    Except String TCGATask :=
  if "sampleID" ∈ m.cols ∧ task_id.1 ∈ m.cols then
    if sorted_pairs m task_id.1 all_sample_ids = [] then
      .error "ValueError: not enough values to unpack"
    else
      let positions := (sorted_pairs m task_id.1 all_sample_ids).map Prod.fst
      let smp := if preloaded then bulk_then_slice data positions
                 else row_subset_read data positions
      .ok { id := task_id
          , labels := (sorted_pairs m task_id.1 all_sample_ids).map Prod.snd
          , categories := categories m task_id.1 all_sample_ids
          , num_classes := (categories m task_id.1 all_sample_ids).length
          , samples := smp
          , input_size := (smp.headD []).length }
  else .error "KeyError"

/-- Values counted by discovery, written the way the claim states them:
every row whose `sampleID` lies in the intersection of the samples having a
present value of `v` with the global sample-id list contributes its value. -/
def spec_counted_values (m : ClinicalTable) (v : String) (all_sample_ids : List String) :
    List (Option String) :=
  (m.rows.filter (fun r =>
      decide (r.sampleID ∈ all_sample_ids) &&
      m.rows.any (fun r2 => r2.sampleID == r.sampleID && (r2.val v).isSome))).map
    (fun r => r.val v)

/-- Concrete global sample-id list used by the worked examples. -/
def idsEx : List String := ["s1", "s2", "s3", "s4"]

/-- Concrete expression matrix used by the worked examples (4 samples,
2 genes). -/
def dataEx : List (List Int) := [[1, 2], [3, 4], [5, 6], [7, 8]]

/-- Row of a single-attribute clinical table. -/
def rowMk (s : String) (sex : Option String) : Row := ⟨s, [("sex", sex)]⟩

/-- Balanced table of the spec scenario: `sex = [M, M, F, F]`. -/
def mGood : ClinicalTable :=
  ⟨["sampleID", "sex"],
   [rowMk "s1" (some "M"), rowMk "s2" (some "M"),
    rowMk "s3" (some "F"), rowMk "s4" (some "F")]⟩

/-- Unbalanced table of the spec scenario: `sex = [M, M, M, F]`. -/
def mRej : ClinicalTable :=
  ⟨["sampleID", "sex"],
   [rowMk "s1" (some "M"), rowMk "s2" (some "M"),
    rowMk "s3" (some "M"), rowMk "s4" (some "F")]⟩

/-- Table whose only row has a missing attribute value: materialization
retains no row. -/
def mEmpty : ClinicalTable := ⟨["sampleID", "sex"], [rowMk "s1" none]⟩

/-- Table lacking the `sex` column. -/
def mNoCol : ClinicalTable := ⟨["sampleID", "age"], [⟨"s1", [("age", some "41")]⟩]⟩

/-- Table where `s1` occurs on two rows, once with a present value and once
with a missing one. -/
def mDup : ClinicalTable :=
  ⟨["sampleID", "sex"],
   [rowMk "s1" (some "M"), rowMk "s1" none, rowMk "s2" (some "M"),
    rowMk "s3" (some "F"), rowMk "s4" (some "F")]⟩

example : task_sample_ids mGood "sex" idsEx = ["s1", "s2", "s3", "s4"] := by decide
example : filtered_attribute mGood "sex" idsEx = ["M", "M", "F", "F"] := by decide
example : categories mGood "sex" idsEx = ["F", "M"] := by decide
example : codes mGood "sex" idsEx = [1, 1, 0, 0] := by decide
example : sorted_pairs mGood "sex" idsEx = [(0, 1), (1, 1), (2, 0), (3, 0)] := by decide
example :
    TCGATask_init ("sex", "AAAA") mGood idsEx dataEx true =
      .ok ⟨("sex", "AAAA"), [1, 1, 0, 0], ["F", "M"], 2,
           [[1, 2], [3, 4], [5, 6], [7, 8]], 2⟩ := by rfl
example : counted_values mDup "sex" idsEx = [some "M", none, some "M", some "F", some "F"] := by
  decide

/-- Balanced-table entry for a valid directory. -/
def entGood : DirEntry := ⟨"AAAA_clinicalMatrix", .ok mGood⟩

/-- Entry whose clinical table fails to parse. -/
def entBad : DirEntry := ⟨"BBBB_clinicalMatrix", .error "ParserError: Error tokenizing data"⟩

/-- Entry whose clinical table lacks the `sex` column. -/
def entNoCol : DirEntry := ⟨"BBBB_clinicalMatrix", .ok mNoCol⟩

/-- Task materialized from `mGood` in the worked examples. -/
def tGood : TCGATask :=
  ⟨("sex", "AAAA"), [1, 1, 0, 0], ["F", "M"], 2, [[1, 2], [3, 4], [5, 6], [7, 8]], 2⟩

theorem charsLe_cons_iff (x y : Char) (xs ys : List Char) :
    charsLe (x :: xs) (y :: ys) = true ↔
      (x.toNat < y.toNat ∨ (x.toNat = y.toNat ∧ charsLe xs ys = true)) := by
  simp only [charsLe]
  split_ifs with h1 h2
  · simp [h1]
  · constructor
    · intro h; exact absurd h (by simp)
    · rintro (h | ⟨h, _⟩) <;> omega
  · have hxy : x.toNat = y.toNat := by omega
    simp [hxy, h1]

theorem charsLe_trans : ∀ (a b c : List Char),
    charsLe a b = true → charsLe b c = true → charsLe a c = true
  | [], _, _, _, _ => rfl
  | _ :: _, [], _, hab, _ => by simp [charsLe] at hab
  | _ :: _, _ :: _, [], _, hbc => by simp [charsLe] at hbc
  | x :: xs, y :: ys, z :: zs, hab, hbc => by
    rw [charsLe_cons_iff] at hab hbc ⊢
    rcases hab with h | ⟨h, hab⟩ <;> rcases hbc with h' | ⟨h', hbc⟩
    · exact Or.inl (by omega)
    · exact Or.inl (by omega)
    · exact Or.inl (by omega)
    · exact Or.inr ⟨by omega, charsLe_trans xs ys zs hab hbc⟩

theorem charsLe_total : ∀ (a b : List Char), charsLe a b = true ∨ charsLe b a = true
  | [], _ => Or.inl rfl
  | _ :: _, [] => Or.inr rfl
  | x :: xs, y :: ys => by
    rw [charsLe_cons_iff, charsLe_cons_iff]
    rcases Nat.lt_trichotomy x.toNat y.toNat with h | h | h
    · exact Or.inl (Or.inl h)
    · rcases charsLe_total xs ys with hh | hh
      · exact Or.inl (Or.inr ⟨h, hh⟩)
      · exact Or.inr (Or.inr ⟨h.symm, hh⟩)
    · exact Or.inr (Or.inl h)

instance : IsTrans String strLE := ⟨fun _ _ _ => charsLe_trans _ _ _⟩

instance : IsTotal String strLE := ⟨fun _ _ => charsLe_total _ _⟩

instance : IsTrans (Nat × Nat) pairLE := ⟨by intro a b c h1 h2; unfold pairLE at *; omega⟩

instance : IsTotal (Nat × Nat) pairLE := ⟨by intro a b; unfold pairLE; omega⟩

theorem length_filtered_attribute (m : ClinicalTable) (v : String) (ids : List String) :
    (filtered_attribute m v ids).length = (available_rows m v ids).length := by
  simp [filtered_attribute]

theorem length_codes (m : ClinicalTable) (v : String) (ids : List String) :
    (codes m v ids).length = (available_rows m v ids).length := by
  simp [codes, length_filtered_attribute]

theorem length_indices_to_load (m : ClinicalTable) (v : String) (ids : List String) :
    (indices_to_load m v ids).length = (available_rows m v ids).length := by
  simp [indices_to_load, sample_ids]

theorem sorted_pairs_perm (m : ClinicalTable) (v : String) (ids : List String) :
    (sorted_pairs m v ids).Perm ((indices_to_load m v ids).zip (codes m v ids)) :=
  List.perm_insertionSort _ _

theorem length_sorted_pairs (m : ClinicalTable) (v : String) (ids : List String) :
    (sorted_pairs m v ids).length = (available_rows m v ids).length := by
  rw [(sorted_pairs_perm m v ids).length_eq, List.length_zip, length_indices_to_load,
    length_codes, Nat.min_self]

theorem sorted_pairs_eq_nil_iff (m : ClinicalTable) (v : String) (ids : List String) :
    sorted_pairs m v ids = [] ↔ available_rows m v ids = [] := by
  rw [← List.length_eq_zero, ← List.length_eq_zero, length_sorted_pairs]

theorem zip_map_fst (m : ClinicalTable) (v : String) (ids : List String) :
    ((indices_to_load m v ids).zip (codes m v ids)).map Prod.fst = indices_to_load m v ids :=
  List.map_fst_zip _ _ (by rw [length_indices_to_load, length_codes])

theorem zip_map_snd (m : ClinicalTable) (v : String) (ids : List String) :
    ((indices_to_load m v ids).zip (codes m v ids)).map Prod.snd = codes m v ids :=
  List.map_snd_zip _ _ (by rw [length_indices_to_load, length_codes])

theorem sorted_pairs_fst_perm (m : ClinicalTable) (v : String) (ids : List String) :
    ((sorted_pairs m v ids).map Prod.fst).Perm (indices_to_load m v ids) := by
  rw [← zip_map_fst m v ids]
  exact (sorted_pairs_perm m v ids).map Prod.fst

theorem sorted_pairs_snd_perm (m : ClinicalTable) (v : String) (ids : List String) :
    ((sorted_pairs m v ids).map Prod.snd).Perm (codes m v ids) := by
  rw [← zip_map_snd m v ids]
  exact (sorted_pairs_perm m v ids).map Prod.snd

theorem mem_categories (m : ClinicalTable) (v : String) (ids : List String) (x : String) :
    x ∈ categories m v ids ↔ x ∈ filtered_attribute m v ids := by
  unfold categories
  rw [(List.perm_insertionSort strLE _).mem_iff, List.mem_dedup]

theorem bulk_then_slice_eq_row_subset_read :
    bulk_then_slice = row_subset_read := rfl

theorem TCGATask_init_ok (task_id : String × String) (m : ClinicalTable)
    (ids : List String) (data : List (List Int)) (pre : Bool)
    (h1 : "sampleID" ∈ m.cols ∧ task_id.1 ∈ m.cols)
    (h2 : sorted_pairs m task_id.1 ids ≠ []) :
    TCGATask_init task_id m ids data pre = .ok
      { id := task_id
      , labels := (sorted_pairs m task_id.1 ids).map Prod.snd
      , categories := categories m task_id.1 ids
      , num_classes := (categories m task_id.1 ids).length
      , samples := row_subset_read data ((sorted_pairs m task_id.1 ids).map Prod.fst)
      , input_size :=
          ((row_subset_read data ((sorted_pairs m task_id.1 ids).map Prod.fst)).headD
            []).length } := by
  unfold TCGATask_init
  rw [if_pos h1, if_neg h2]
  cases pre <;> rfl

theorem TCGATask_init_ok_elim {task_id : String × String} {m : ClinicalTable}
    {ids : List String} {data : List (List Int)} {pre : Bool} {t : TCGATask}
    (h : TCGATask_init task_id m ids data pre = .ok t) :
    ("sampleID" ∈ m.cols ∧ task_id.1 ∈ m.cols) ∧ sorted_pairs m task_id.1 ids ≠ [] ∧
    t = { id := task_id
        , labels := (sorted_pairs m task_id.1 ids).map Prod.snd
        , categories := categories m task_id.1 ids
        , num_classes := (categories m task_id.1 ids).length
        , samples := row_subset_read data ((sorted_pairs m task_id.1 ids).map Prod.fst)
        , input_size :=
            ((row_subset_read data ((sorted_pairs m task_id.1 ids).map Prod.fst)).headD
              []).length } := by
  by_cases h1 : ("sampleID" ∈ m.cols ∧ task_id.1 ∈ m.cols)
  · by_cases h2 : sorted_pairs m task_id.1 ids = []
    · unfold TCGATask_init at h
      rw [if_pos h1, if_pos h2] at h
      simp at h
    · rw [TCGATask_init_ok task_id m ids data pre h1 h2] at h
      refine ⟨h1, h2, ?_⟩
      injection h with h
      exact h.symm
  · unfold TCGATask_init at h
    rw [if_neg h1] at h
    simp at h

theorem mem_task_sample_ids (m : ClinicalTable) (v : String) (ids : List String)
    (s : String) :
    s ∈ task_sample_ids m v ids ↔
      (∃ r ∈ m.rows, (r.val v).isSome = true ∧ r.sampleID = s) ∧ s ∈ ids := by
  simp only [task_sample_ids, List.mem_filter, List.mem_map, decide_eq_true_eq]
  tauto

theorem spec_counted_values_eq (m : ClinicalTable) (v : String) (ids : List String) :
    spec_counted_values m v ids = counted_values m v ids := by
  unfold spec_counted_values counted_values
  congr 1
  apply List.filter_congr
  intro r _
  have hiff :
      ((decide (r.sampleID ∈ ids) &&
          m.rows.any (fun r2 => r2.sampleID == r.sampleID && (r2.val v).isSome)) = true) ↔
        (decide (r.sampleID ∈ task_sample_ids m v ids) = true) := by
    simp only [Bool.and_eq_true, decide_eq_true_eq, List.any_eq_true, beq_iff_eq,
      mem_task_sample_ids]
    constructor
    · rintro ⟨hs, r2, hr2, hid, hv⟩
      exact ⟨⟨r2, hr2, hv, hid⟩, hs⟩
    · rintro ⟨⟨r2, hr2, hv, hid⟩, hs⟩
      exact ⟨hs, r2, hr2, hid, hv⟩
  exact Bool.eq_iff_iff.mpr (by simpa using hiff)

theorem mem_tasks_for_table (p : String × String) (f : String) (m : ClinicalTable)
    (vars ids : List String) (minS : Nat) :
    p ∈ tasks_for_table f m vars ids minS ↔
      p.1 ∈ vars ∧ p.2 = cancer_of f ∧ (p.1 ∈ m.cols ∧ "sampleID" ∈ m.cols) ∧
      (num_samples_per_class_is_in_range m p.1 ids minS = true ∧
        is_not_one_class m p.1 ids = true) := by
  simp only [tasks_for_table, List.mem_filterMap]
  constructor
  · rintro ⟨v, hv, hfv⟩
    split_ifs at hfv with h1 h2
    · injection hfv with hfv
      cases hfv
      exact ⟨hv, rfl, h1, by simpa using h2⟩
  · rintro ⟨hv, hc, h1, h2⟩
    refine ⟨p.1, hv, ?_⟩
    rw [if_pos h1, if_pos (by simpa using h2)]
    cases p
    simp_all

/-- C1: task discovery accepts the TaskId `(v, cancer_of f)` iff, over the
rows whose `sampleID` lies in the intersection of the samples having a
present value of `v` with the global sample-id list, every per-category
count is strictly greater than `min_samples_per_class` and there are at
least 2 distinct categories; in particular a category whose count equals
`min_samples_per_class` exactly forces rejection. -/
theorem claim_C1_discovery_accept_iff (f : String) (m : ClinicalTable) (v : String)
    (vars ids : List String) (minS : Nat) :
    ((v, cancer_of f) ∈ tasks_for_table f m vars ids minS ↔
      v ∈ vars ∧ (v ∈ m.cols ∧ "sampleID" ∈ m.cols) ∧
      ((∀ k ∈ (spec_counted_values m v ids).dedup,
          minS < (spec_counted_values m v ids).count k) ∧
        2 ≤ (spec_counted_values m v ids).dedup.length)) ∧
    (∀ k ∈ (spec_counted_values m v ids).dedup,
      (spec_counted_values m v ids).count k = minS →
        (v, cancer_of f) ∉ tasks_for_table f m vars ids minS) := by
  have hbool :
      (num_samples_per_class_is_in_range m v ids minS = true ∧
          is_not_one_class m v ids = true) ↔
        ((∀ k ∈ (spec_counted_values m v ids).dedup,
            minS < (spec_counted_values m v ids).count k) ∧
          2 ≤ (spec_counted_values m v ids).dedup.length) := by
    rw [spec_counted_values_eq m v ids]
    simp only [num_samples_per_class_is_in_range, is_not_one_class, List.all_eq_true,
      decide_eq_true_eq]
    constructor
    · rintro ⟨a, b⟩; exact ⟨a, by omega⟩
    · rintro ⟨a, b⟩; exact ⟨a, by omega⟩
  have hmem := mem_tasks_for_table (v, cancer_of f) f m vars ids minS
  constructor
  · rw [hmem]
    constructor
    · rintro ⟨ha, _, hb, hc⟩; exact ⟨ha, hb, hbool.mp hc⟩
    · rintro ⟨ha, hb, hc⟩; exact ⟨ha, rfl, hb, hbool.mpr hc⟩
  · intro k hk hcount hin
    rw [hmem] at hin
    obtain ⟨_, _, _, hc⟩ := hin
    have := (hbool.mp hc).1 k hk
    omega

/-- Witness for C1: the spec scenarios `sex = [M, M, F, F]` (accepted) and
`sex = [M, M, M, F]` (rejected because the `F` count equals
`min_samples_per_class = 1`). -/
theorem claim_C1_witness :
    ("sex", "AAAA") ∈ tasks_for_table "AAAA_clinicalMatrix" mGood ["sex"] idsEx 1 ∧
    ("sex", "AAAA") ∉ tasks_for_table "AAAA_clinicalMatrix" mRej ["sex"] idsEx 1 := by
  constructor
  · exact (claim_C1_discovery_accept_iff "AAAA_clinicalMatrix" mGood "sex" ["sex"] idsEx 1).1.mpr
      ⟨by decide, ⟨by decide, by decide⟩, by decide, by decide⟩
  · exact (claim_C1_discovery_accept_iff "AAAA_clinicalMatrix" mRej "sex" ["sex"] idsEx 1).2
      (some "F") (by decide) (by decide)

/-- Counterexample to C2: on a table whose only row has a missing attribute
value, zero rows are retained and materialization fails with the unpacking
`ValueError` of source line 155 instead of returning a 0-row task. -/
theorem claim_C2_counterexample :
    available_rows mEmpty "sex" idsEx = [] ∧
    TCGATask_init ("sex", "AAAA") mEmpty idsEx dataEx true =
      .error "ValueError: not enough values to unpack" ∧
    (TCGATask_init ("sex", "AAAA") mEmpty idsEx dataEx true).isOk = false :=
  ⟨by decide, rfl, rfl⟩

/-- C2 as amended: whenever the `sampleID` and task-variable columns exist
and at least one row survives the non-missing and global-sample-membership
filters, materialization completes and returns a task whose length equals
the number of retained rows; with zero retained rows (or a missing column)
it fails instead. -/
theorem claim_C2_amended_materialize (task_id : String × String) (m : ClinicalTable)
    (ids : List String) (data : List (List Int)) (pre : Bool)
    (h1 : "sampleID" ∈ m.cols) (h2 : task_id.1 ∈ m.cols)
    (h3 : available_rows m task_id.1 ids ≠ []) :
    ∃ t, TCGATask_init task_id m ids data pre = .ok t ∧
      t.labels.length = (available_rows m task_id.1 ids).length ∧
      t.samples.length = (available_rows m task_id.1 ids).length := by
  have hnn : sorted_pairs m task_id.1 ids ≠ [] := by
    rw [Ne, sorted_pairs_eq_nil_iff]; exact h3
  refine ⟨_, TCGATask_init_ok task_id m ids data pre ⟨h1, h2⟩ hnn, ?_, ?_⟩
  · simp [length_sorted_pairs]
  · simp [row_subset_read, length_sorted_pairs]

/-- Witness for the amended C2, on the balanced example table. -/
theorem claim_C2_witness :
    ∃ t, TCGATask_init ("sex", "AAAA") mGood idsEx dataEx true = .ok t ∧
      t.labels.length = (available_rows mGood "sex" idsEx).length ∧
      t.samples.length = (available_rows mGood "sex" idsEx).length :=
  claim_C2_amended_materialize ("sex", "AAAA") mGood idsEx dataEx true (by decide) (by decide)
    (by decide)

/-- C3: the preloaded bulk-then-slice read and the on-demand row-subset read
agree on every position sequence, and materializing any TaskId with
preloaded data gives exactly the same result as materializing it without. -/
theorem claim_C3_preload_equivalence :
    (∀ (data : List (List Int)) (positions : List Nat),
        bulk_then_slice data positions = row_subset_read data positions) ∧
    (∀ (task_id : String × String) (m : ClinicalTable) (ids : List String)
        (data : List (List Int)),
        TCGATask_init task_id m ids data true = TCGATask_init task_id m ids data false) := by
  refine ⟨fun _ _ => rfl, fun task_id m ids data => ?_⟩
  unfold TCGATask_init
  split_ifs <;> rfl

theorem mem_codes_lt (m : ClinicalTable) (v : String) (ids : List String) {l : Nat}
    (h : l ∈ codes m v ids) : l < (categories m v ids).length := by
  simp only [codes, List.mem_map] at h
  obtain ⟨x, hx, rfl⟩ := h
  exact List.indexOf_lt_length.mpr ((mem_categories m v ids x).mpr hx)

/-- C4: the Category sequence is the lexicographically sorted set of distinct
observed attribute values and each retained row's label code is the
zero-based index of its value in that sequence; on the worked example with
values M, M, F, F the categories are F, M, so F encodes to 0 and M to 1. -/
theorem claim_C4_label_encoding (m : ClinicalTable) (v : String) (ids : List String) :
    (categories m v ids).Sorted strLE ∧
    (categories m v ids).Nodup ∧
    (∀ x, x ∈ categories m v ids ↔ x ∈ filtered_attribute m v ids) ∧
    codes m v ids =
      (filtered_attribute m v ids).map (fun x => List.indexOf x (categories m v ids)) ∧
    (categories mGood "sex" idsEx = ["F", "M"] ∧ codes mGood "sex" idsEx = [1, 1, 0, 0]) :=
  ⟨List.sorted_insertionSort strLE _,
    ((List.perm_insertionSort strLE _).nodup_iff).mpr (List.nodup_dedup _),
    mem_categories m v ids, rfl, by decide, by decide⟩

/-- C5: the sorted (position, code) pairs have monotonically non-decreasing
row positions forming a permutation of the retained row positions, and the
materialized task's feature row `i` is the expression row at the `i`-th
sorted position while label `i` is the paired code. -/
theorem claim_C5_sorted_gather (task_id : String × String) (m : ClinicalTable)
    (ids : List String) (data : List (List Int)) (pre : Bool) :
    (((sorted_pairs m task_id.1 ids).map Prod.fst).Sorted (· ≤ ·)) ∧
    ((sorted_pairs m task_id.1 ids).map Prod.fst).Perm (indices_to_load m task_id.1 ids) ∧
    (∀ t, TCGATask_init task_id m ids data pre = .ok t →
      t.samples =
        ((sorted_pairs m task_id.1 ids).map Prod.fst).map (fun i => data.getD i []) ∧
      t.labels = (sorted_pairs m task_id.1 ids).map Prod.snd) := by
  refine ⟨?_, sorted_pairs_fst_perm m task_id.1 ids, ?_⟩
  · exact List.Pairwise.map Prod.fst (fun a b h => by unfold pairLE at h; omega)
      (List.sorted_insertionSort pairLE _)
  · intro t ht
    obtain ⟨_, _, rfl⟩ := TCGATask_init_ok_elim ht
    exact ⟨rfl, rfl⟩

/-- Witness for C5 on the balanced example table. -/
theorem claim_C5_witness :
    tGood.samples =
      ((sorted_pairs mGood "sex" idsEx).map Prod.fst).map (fun i => dataEx.getD i []) ∧
    tGood.labels = (sorted_pairs mGood "sex" idsEx).map Prod.snd :=
  (claim_C5_sorted_gather ("sex", "AAAA") mGood idsEx dataEx true).2.2 tGood rfl

/-- C7: a materialized task has as many labels as feature rows, both equal to
the number of gathered rows, and every label is below `num_classes`, the
length of the category sequence. -/
theorem claim_C7_task_invariants (task_id : String × String) (m : ClinicalTable)
    (ids : List String) (data : List (List Int)) (pre : Bool) (t : TCGATask)
    (h : TCGATask_init task_id m ids data pre = .ok t) :
    t.labels.length = t.samples.length ∧
    t.samples.length = (sorted_pairs m task_id.1 ids).length ∧
    t.num_classes = t.categories.length ∧
    ∀ l ∈ t.labels, l < t.num_classes := by
  obtain ⟨_, _, rfl⟩ := TCGATask_init_ok_elim h
  refine ⟨by simp [row_subset_read], by simp [row_subset_read], rfl, ?_⟩
  intro l hl
  exact mem_codes_lt m task_id.1 ids
    ((sorted_pairs_snd_perm m task_id.1 ids).mem_iff.mp hl)

/-- Witness for C7 on the balanced example table. -/
theorem claim_C7_witness :
    tGood.labels.length = tGood.samples.length ∧
    tGood.samples.length = (sorted_pairs mGood "sex" idsEx).length ∧
    tGood.num_classes = tGood.categories.length ∧
    ∀ l ∈ tGood.labels, l < tGood.num_classes :=
  claim_C7_task_invariants ("sex", "AAAA") mGood idsEx dataEx true tGood rfl

/-- C8: every retained row has its sample identifier in the global sample-id
sequence and a present attribute value, and the task draws exactly one label
and one feature row per retained row, so no other row contributes. -/
theorem claim_C8_retained_filter (task_id : String × String) (m : ClinicalTable)
    (ids : List String) (data : List (List Int)) (pre : Bool) :
    (∀ r ∈ available_rows m task_id.1 ids,
        r.sampleID ∈ ids ∧ (r.val task_id.1).isSome = true) ∧
    (∀ t, TCGATask_init task_id m ids data pre = .ok t →
        t.labels.length = (available_rows m task_id.1 ids).length ∧
        t.samples.length = (available_rows m task_id.1 ids).length) := by
  constructor
  · intro r hr
    simp only [available_rows, List.mem_filter, Bool.and_eq_true, decide_eq_true_eq] at hr
    exact ⟨hr.2.2, hr.2.1⟩
  · intro t ht
    obtain ⟨_, _, rfl⟩ := TCGATask_init_ok_elim ht
    exact ⟨by simp [length_sorted_pairs], by simp [row_subset_read, length_sorted_pairs]⟩

/-- Witness for C8 on the balanced example table. -/
theorem claim_C8_witness :
    ((rowMk "s1" (some "M")).sampleID ∈ idsEx ∧
      ((rowMk "s1" (some "M")).val "sex").isSome = true) ∧
    (tGood.labels.length = (available_rows mGood "sex" idsEx).length ∧
      tGood.samples.length = (available_rows mGood "sex" idsEx).length) :=
  ⟨(claim_C8_retained_filter ("sex", "AAAA") mGood idsEx dataEx true).1
      (rowMk "s1" (some "M")) (by decide),
    (claim_C8_retained_filter ("sex", "AAAA") mGood idsEx dataEx true).2 tGood rfl⟩

/-- Counterexample to C6: a directory mixing a valid table and one whose
parse fails makes discovery fail with the parse error instead of skipping
the malformed table, because `pd.read_csv` at source line 205 is outside
the `try` block; the same directory without the malformed file succeeds. -/
theorem claim_C6_counterexample :
    get_TCGA_task_ids [entGood, entBad] ["sex"] idsEx 1 =
      .error "ParserError: Error tokenizing data" ∧
    (get_TCGA_task_ids [entGood, entBad] ["sex"] idsEx 1).isOk = false ∧
    get_TCGA_task_ids [entGood] ["sex"] idsEx 1 = .ok [("sex", "AAAA")] :=
  ⟨rfl, rfl, rfl⟩

/-- C6 as amended: discovery succeeds precisely when every clinical table in
the directory parses; a table lacking a requested column is skipped, but a
table that cannot be parsed aborts the whole scan (in addition to the
failures when the sample-id file or task-variable list cannot be read,
which happen before the scan). -/
theorem claim_C6_amended_parse_failures_fatal (entries : List DirEntry)
    (vars ids : List String) (minS : Nat) :
    (get_TCGA_task_ids entries vars ids minS).isOk = true ↔
      ∀ e ∈ entries, e.table.isOk = true := by
  induction entries with
  | nil => simp [get_TCGA_task_ids, Except.isOk, Except.toBool]
  | cons e rest ih =>
    rw [List.forall_mem_cons]
    cases he : e.table with
    | error msg =>
      simp [get_TCGA_task_ids, he, Except.isOk, Except.toBool]
    | ok m =>
      cases hr : get_TCGA_task_ids rest vars ids minS with
      | error msg =>
        rw [hr] at ih
        simp only [get_TCGA_task_ids, he, hr]
        simp [Except.isOk, Except.toBool] at ih ⊢
        exact ih
      | ok ts =>
        rw [hr] at ih
        simp only [get_TCGA_task_ids, he, hr]
        simp [Except.isOk, Except.toBool] at ih ⊢
        exact ih

/-- C9: when every table parses and every table whose filename yields the
cancer token `c` lacks the column `v`, discovery completes without error and
the pair `(v, c)` never appears in the catalog. -/
theorem claim_C9_missing_column_skipped (entries : List DirEntry)
    (vars ids : List String) (minS : Nat) (v c : String)
    (hok : ∀ e ∈ entries, e.table.isOk = true)
    (habs : ∀ e ∈ entries, ∀ m, e.table = .ok m → cancer_of e.filename = c → v ∉ m.cols) :
    ∃ ts, get_TCGA_task_ids entries vars ids minS = .ok ts ∧ (v, c) ∉ ts := by
  induction entries with
  | nil => exact ⟨[], rfl, by simp⟩
  | cons e rest ih =>
    obtain ⟨ts, hts, hnot⟩ := ih (fun e' he' => hok e' (List.mem_cons_of_mem _ he'))
      (fun e' he' => habs e' (List.mem_cons_of_mem _ he'))
    have hh := hok e (List.mem_cons_self _ _)
    cases he : e.table with
    | error msg => rw [he] at hh; simp [Except.isOk, Except.toBool] at hh
    | ok m =>
      refine ⟨tasks_for_table e.filename m vars ids minS ++ ts, ?_, ?_⟩
      · simp [get_TCGA_task_ids, he, hts]
      · intro hmem
        rcases List.mem_append.mp hmem with hmem | hmem
        · have hmt := (mem_tasks_for_table (v, c) e.filename m vars ids minS).mp hmem
          exact habs e (List.mem_cons_self _ _) m he hmt.2.1.symm hmt.2.2.1.1
        · exact hnot hmem

/-- Witness for C9: a directory mixing a table that has the `sex` column
with one that lacks it; discovery completes and yields no task for the
column-less cancer type. -/
theorem claim_C9_witness :
    ∃ ts, get_TCGA_task_ids [entGood, entNoCol] ["sex"] idsEx 1 = .ok ts ∧
      ("sex", "BBBB") ∉ ts := by
  apply claim_C9_missing_column_skipped
  · intro e he
    simp only [List.mem_cons, List.not_mem_nil, or_false] at he
    rcases he with rfl | rfl <;> rfl
  · intro e he m hm hc
    simp only [List.mem_cons, List.not_mem_nil, or_false] at he
    rcases he with rfl | rfl
    · exact absurd hc (by decide)
    · injection hm with hm
      subst hm
      decide

/-- C10: the discovery counts run over every row whose `sampleID` is in the
intersected sample set, without re-applying the non-missing filter, so a
missing value of a sample that also has a present-valued row is counted as
its own category and takes part in the threshold and two-class checks.  On
the `mDup` table (`s1` has one `M` row and one missing row) the counter
holds three keys, the present-only counts would all pass the threshold 1,
yet the missing key has count 1 and the task is rejected. -/
theorem claim_C10_missing_values_counted :
    (∀ (m : ClinicalTable) (v : String) (ids : List String), ∀ r ∈ m.rows,
        r.sampleID ∈ task_sample_ids m v ids → r.val v ∈ counted_values m v ids) ∧
    (counted_values mDup "sex" idsEx = [some "M", none, some "M", some "F", some "F"] ∧
      List.count (none : Option String) (counted_values mDup "sex" idsEx) = 1 ∧
      (counted_values mDup "sex" idsEx).dedup.length = 3 ∧
      (∀ k ∈ ((counted_values mDup "sex" idsEx).filter Option.isSome).dedup,
        1 < ((counted_values mDup "sex" idsEx).filter Option.isSome).count k) ∧
      ((counted_values mDup "sex" idsEx).filter Option.isSome).dedup.length = 2 ∧
      num_samples_per_class_is_in_range mDup "sex" idsEx 1 = false ∧
      tasks_for_table "AAAA_clinicalMatrix" mDup ["sex"] idsEx 1 = []) := by
  constructor
  · intro m v ids r hr hmem
    simp only [counted_values, List.mem_map]
    exact ⟨r, List.mem_filter.mpr ⟨hr, by simpa using hmem⟩, rfl⟩
  · exact ⟨by decide, by decide, by decide, by decide, by decide, by decide, by decide⟩

/-- Witness for C10: the missing-value row of sample `s1` contributes its
`none` value to the counted values. -/
theorem claim_C10_witness :
    (rowMk "s1" none).val "sex" ∈ counted_values mDup "sex" idsEx :=
  claim_C10_missing_values_counted.1 mDup "sex" idsEx (rowMk "s1" none) (by decide)
    (by decide)
